import Mathlib

/-!
# Verification of the task-management backend (`src/backend/server.js`)

Shallow embedding of the Express/Mongoose backend of the IBM full-stack
capstone repository.  Request handlers become Lean functions from a request
payload and a store state to a new store state and an HTTP response.  Machine
integers never overflow here (ids, timestamps and counts are small), so `Nat`
and `Int` model JS numbers where they are used integrally; timestamps are
`Nat` (milliseconds since epoch).

External libraries used by the server (`bcryptjs`, `jsonwebtoken`, the
MongoDB/Mongoose store) are not part of the repository; they are modelled
from the spec's contracts for them (sections 4.1, 4.2 and the glossary),
with each such definition marked `Modelled from the spec:`.
-/

namespace Capstone

/-! ## Password hasher (spec section 4.1) -/

/-- Modelled from the spec: the digest step of the salted one-way password
hash (`bcryptjs` is an external dependency; only its contract
`hash`/`verify` matters here).  A concrete executable mixing function stands
in for the real digest; what the development uses is that recomputing the
digest of the same plaintext with the same salt reproduces it. -/
def bcryptDigest (salt : Nat) (plaintext : String) : Nat :=
  plaintext.data.foldl (fun a c => (a * 131 + c.toNat + salt) % 1000000007) 7

/-- Modelled from the spec: the value produced by the password hasher — a
cost factor, the salt, and the digest.  The plaintext itself is not a field
of this type, reflecting the one-way contract. -/
structure BcryptHash where
  cost : Nat
  salt : Nat
  digest : Nat
deriving Repr, DecidableEq

/-- Modelled from the spec: `hash(plaintext) → hashedValue` with an explicit
salt (the real library draws the salt randomly; here it is a parameter). -/
def bcryptHash (plaintext : String) (cost salt : Nat) : BcryptHash :=
  { cost := cost, salt := salt, digest := bcryptDigest salt plaintext }

/-- Modelled from the spec: `verify(plaintext, hashedValue) → boolean`
recomputes the digest with the salt embedded in the stored value. -/
def bcryptCompare (plaintext : String) (h : BcryptHash) : Bool :=
  bcryptDigest h.salt plaintext == h.digest

/-! ## Token issuer / verifier (spec section 4.2, `jsonwebtoken`) -/

/-- The identity claims embedded in a token: `{ userId, username }`
(server.js lines 225-229 and 279-283). -/
structure JwtPayload where
  userId : Nat
  username : String
deriving Repr, DecidableEq

/-- Modelled from the spec: a bearer token as the verifier sees it — either
malformed (not a well-formed signed token at all) or a signed assertion
carrying its claims, the secret it was signed with, and its expiry time. -/
inductive TokenBits
  | malformed
  | signed (userId : Nat) (username : String) (secret : String) (exp : Nat)
deriving Repr, DecidableEq

/-- The server's signing secret (server.js line 29, default value). -/
def jwtSecret : String := "ibm_fullstack_capstone_secret_2025"

/-- Modelled from the spec: `jwt.sign({userId, username}, secret,
{expiresIn: '24h'})` — a token valid for 24 hours from `now`
(86400000 ms). -/
def jwtSign (userId : Nat) (username : String) (secret : String) (now : Nat) :
    TokenBits :=
  .signed userId username secret (now + 86400000)

/-- Modelled from the spec: `jwt.verify(token, secret)` — fails (returns
`none`) when the token is malformed, signed with a different secret, or
expired; otherwise yields the decoded claims. -/
def jwtVerify (t : TokenBits) (secret : String) (now : Nat) :
    Option JwtPayload :=
  match t with
  | .malformed => none
  | .signed uid uname s exp =>
      if s == secret && now < exp then some ⟨uid, uname⟩ else none

/-! ## Data model (the three Mongoose schemas, server.js lines 62-134) -/

/-- A user document (`userSchema`, lines 63-75).  The password field holds a
`BcryptHash`, never a plaintext string. -/
structure UserRec where
  id : Nat
  username : String
  email : String
  password : BcryptHash
  firstName : String
  lastName : String
  role : String
  isActive : Bool
  lastLogin : Option Nat
  createdAt : Nat
  updatedAt : Nat
deriving Repr, DecidableEq

/-- An embedded attachment (`taskSchema.attachments`, lines 98-102). -/
structure Attachment where
  filename : String
  url : String
  uploadedAt : Nat
deriving Repr, DecidableEq

/-- An embedded comment (`taskSchema.comments`, lines 103-107). -/
structure TaskComment where
  user : Nat
  text : String
  createdAt : Nat
deriving Repr, DecidableEq

/-- A task document (`taskSchema`, lines 78-110).  Named `TaskRec` because
`Task` is taken by Lean's core library. -/
structure TaskRec where
  id : Nat
  title : String
  description : String
  status : String
  priority : String
  assignedTo : Option Nat
  createdBy : Nat
  project : String
  tags : List String
  dueDate : Option Nat
  estimatedHours : Option Int
  actualHours : Int
  attachments : List Attachment
  comments : List TaskComment
  createdAt : Nat
  updatedAt : Nat
deriving Repr, DecidableEq

/-- A project document (`projectSchema`, lines 113-129); only the fields the
verified handlers read are carried further, but the document shape is kept. -/
structure ProjectRec where
  id : Nat
  name : String
  description : String
  status : String
  owner : Nat
  team : List Nat
  startDate : Nat
  endDate : Option Nat
  budget : Option Int
  progress : Int
  createdAt : Nat
  updatedAt : Nat
deriving Repr, DecidableEq

/-- `taskSchema.status` enum (line 83). -/
def taskStatusEnum : List String := ["todo", "in-progress", "review", "completed"]

/-- `taskSchema.priority` enum (line 88). -/
def taskPriorityEnum : List String := ["low", "medium", "high", "urgent"]

/-- Check an optional value when present; a missing value passes. -/
def optCheck {α : Type} (p : α → Bool) : Option α → Bool
  | none => true
  | some x => p x

/-- The Mongoose document validators of `taskSchema` run on save (create
path): required strings non-empty (Mongoose `required` fails on `''` and on
a missing value alike), enum membership for status/priority, `min: 0` on the
hour counters, and `required` on each embedded comment's text. -/
def validTaskRec (t : TaskRec) : Bool :=
  t.title != "" && t.description != "" && t.project != "" &&
  taskStatusEnum.contains t.status &&
  taskPriorityEnum.contains t.priority &&
  optCheck (fun h => decide (0 ≤ h)) t.estimatedHours &&
  decide (0 ≤ t.actualHours) &&
  t.comments.all (fun c => c.text != "")

/-- The persistent store: the three collections plus a fresh-id counter
standing in for ObjectId generation.  List order is insertion order, which
is the natural order `findOne` scans. -/
structure Store where
  users : List UserRec
  projects : List ProjectRec
  tasks : List TaskRec
  nextId : Nat
deriving Repr, DecidableEq

/-! ## HTTP layer -/

/-- A JSON response: a success payload with its status code, or an error
body `{ error: message }` with its status code. -/
inductive ApiResp (α : Type)
  | ok (status : Nat) (body : α)
  | err (status : Nat) (error : String)
deriving Repr, DecidableEq

/-- Outcome of the authentication gate, before the response is shaped. -/
inductive AuthOutcome
  | unauthorized
  | forbidden
  | authed (user : JwtPayload)
deriving Repr, DecidableEq

/-- The token as extracted from the request: `absent` covers both a missing
authorization header and a header with no second space-separated part
(`authHeader && authHeader.split(' ')[1]` is falsy in both cases). -/
inductive HeaderToken
  | absent
  | present (t : TokenBits)
deriving Repr, DecidableEq

/-- `authenticateToken` middleware (server.js lines 137-152): no token means
401, a token that fails `jwt.verify` means 403, otherwise the decoded claims
are attached to the request. -/
def authenticateToken (hdr : HeaderToken) (secret : String) (now : Nat) :
    AuthOutcome :=
  match hdr with
  | .absent => .unauthorized
  | .present t =>
      match jwtVerify t secret now with
      | none => .forbidden
      | some u => .authed u

/-- A protected route: the middleware runs first and short-circuits with the
exact bodies from lines 142 and 147; only on success does the handler run,
with the decoded identity. -/
def runProtected {α : Type} (hdr : HeaderToken) (secret : String) (now : Nat)
    (handler : JwtPayload → Store → Store × ApiResp α) (db : Store) :
    Store × ApiResp α :=
  match authenticateToken hdr secret now with
  | .unauthorized => (db, .err 401 "Access token required")
  | .forbidden => (db, .err 403 "Invalid or expired token")
  | .authed u => handler u db

/-! ## Centralized error handler (server.js lines 155-173) -/

/-- The shapes of exceptions the `errorHandler` middleware discriminates on:
a Mongoose `ValidationError` (with its per-field messages), a MongoDB
duplicate-key error (`code === 11000`, with the offending index field), or
anything else. -/
inductive JsError
  | validationError (messages : List String)
  | duplicateKey (field : String)
  | other (message : String)
deriving Repr, DecidableEq

/-- An error response as the `errorHandler` shapes it: status code, `error`
string, optional `details` array, optional `field`. -/
structure ErrorResponse where
  status : Nat
  error : String
  details : List String
  field : Option String
deriving Repr, DecidableEq

/-- `errorHandler` (lines 155-173): ValidationError becomes 400 with the
field-level messages, duplicate key becomes 400 naming the field, everything
else becomes a generic 500. -/
def errorHandler (e : JsError) : ErrorResponse :=
  match e with
  | .validationError msgs => ⟨400, "Validation Error", msgs, none⟩
  | .duplicateKey f => ⟨400, "Duplicate entry", [], some f⟩
  | .other _ => ⟨500, "Internal server error", [], none⟩

/-! ## Authentication routes (server.js lines 188-303) -/

/-- The body of `POST /api/auth/register`; a `none` field was not sent. -/
structure RegisterBody where
  username : Option String
  email : Option String
  password : Option String
  firstName : Option String
  lastName : Option String
deriving Repr, DecidableEq

/-- JS truthiness of a destructured string field: both a missing field and
the empty string are falsy. -/
def truthy : Option String → Bool
  | none => false
  | some s => s != ""

/-- `userSchema.email` has `lowercase: true`: the setter lowercases the
value on assignment, and Mongoose applies schema setters to query filter
values as well, so every comparison against the email field goes through
this normalization. -/
def emailKey (s : String) : String := ⟨s.data.map Char.toLower⟩

/-- The user projection returned by register/login (lines 234-241 and
288-296, minus `lastLogin`): id, username, email, names, role — and no
password field. -/
structure PublicUser where
  id : Nat
  username : String
  email : String
  firstName : String
  lastName : String
  role : String
deriving Repr, DecidableEq

/-- Projection of a stored user to the response shape. -/
def publicOf (u : UserRec) : PublicUser :=
  ⟨u.id, u.username, u.email, u.firstName, u.lastName, u.role⟩

/-- Response of `POST /api/auth/register`. -/
inductive RegisterResult
  | created (token : TokenBits) (user : PublicUser)
  | failure (status : Nat) (error : String)
deriving Repr, DecidableEq

/-- The user document built by `new User({username, email, password:
hashedPassword, firstName, lastName})` at lines 214-220, with the schema
defaults of lines 69-74 (`role: 'user'`, `isActive: true`) and the email
lowercased by its setter. -/
def newUserRec (db : Store) (b : RegisterBody) (now salt : Nat) : UserRec :=
  { id := db.nextId
    username := b.username.getD ""
    email := emailKey (b.email.getD "")
    password := bcryptHash (b.password.getD "") 12 salt
    firstName := b.firstName.getD ""
    lastName := b.lastName.getD ""
    role := "user"
    isActive := true
    lastLogin := none
    createdAt := now
    updatedAt := now }

/-- `POST /api/auth/register` (lines 188-248): field presence check, minimum
password length, duplicate lookup by email or username, then
`bcrypt.hash(password, 12)`, save with schema defaults, and a signed 24h
token.  `salt` stands for the salt bcrypt draws internally. -/
def register (db : Store) (b : RegisterBody) (now salt : Nat) :
    Store × RegisterResult :=
  if !(truthy b.username && truthy b.email && truthy b.password &&
       truthy b.firstName && truthy b.lastName) then
    (db, .failure 400 "All fields are required")
  else if (b.password.getD "").length < 6 then
    (db, .failure 400 "Password must be at least 6 characters")
  else if (db.users.find? fun u =>
      u.email == emailKey (b.email.getD "") ||
      u.username == b.username.getD "").isSome then
    (db, .failure 400 "User already exists")
  else
    let u := newUserRec db b now salt
    ({ db with users := db.users ++ [u], nextId := db.nextId + 1 },
     .created (jwtSign u.id u.username jwtSecret now) (publicOf u))

/-- Response of `POST /api/auth/login`; the success body also carries
`lastLogin` (line 295). -/
inductive LoginResult
  | ok (token : TokenBits) (user : PublicUser) (lastLogin : Nat)
  | failure (status : Nat) (error : String)
deriving Repr, DecidableEq

/-- `POST /api/auth/login` (lines 250-303): presence check, then
`findOne({$or: [{username}, {email: username}]})` (first match in insertion
order; the email clause goes through the lowercase setter), the combined
`!user || !user.isActive` rejection, `bcrypt.compare`, and on success a
`lastLogin` refresh, a save, and a fresh token. -/
def login (db : Store) (username password : Option String) (now : Nat) :
    Store × LoginResult :=
  if !(truthy username && truthy password) then
    (db, .failure 400 "Username and password required")
  else
    let uname := username.getD ""
    let pw := password.getD ""
    match db.users.find? fun u =>
        u.username == uname || u.email == emailKey uname with
    | none => (db, .failure 401 "Invalid credentials")
    | some u =>
        if !u.isActive then (db, .failure 401 "Invalid credentials")
        else if !(bcryptCompare pw u.password) then
          (db, .failure 401 "Invalid credentials")
        else
          let u2 := { u with lastLogin := some now }
          ({ db with users := db.users.map fun v =>
               if v.id == u.id then u2 else v },
           .ok (jwtSign u.id u.username jwtSecret now) (publicOf u2) now)

/-! ## Task routes (server.js lines 330-412) -/

/-- The JSON body of a task create/update request.  A `none` field was not
sent (and so is left to its default on create, or unchanged on update); for
fields that are themselves optional in the schema the inner `Option` is the
sent value. -/
structure TaskBody where
  title : Option String
  description : Option String
  status : Option String
  priority : Option String
  assignedTo : Option (Option Nat)
  createdBy : Option Nat
  project : Option String
  tags : Option (List String)
  dueDate : Option (Option Nat)
  estimatedHours : Option (Option Int)
  actualHours : Option Int
  attachments : Option (List Attachment)
  comments : Option (List TaskComment)
deriving Repr, DecidableEq

/-- A body with nothing sent, for building concrete requests. -/
def emptyTaskBody : TaskBody :=
  ⟨none, none, none, none, none, none, none, none, none, none, none, none, none⟩

/-- The document built by `new Task({...req.body, createdBy: req.user.userId,
updatedAt: new Date()})` (lines 363-369): schema defaults fill the unsent
fields, a missing required string stays empty (and fails validation), and
`createdBy` is always the authenticated caller — the spread puts the
override after the body, so a client-sent `createdBy` is discarded. -/
def buildTask (body : TaskBody) (creator : Nat) (now : Nat) (id : Nat) :
    TaskRec :=
  { id := id
    title := body.title.getD ""
    description := body.description.getD ""
    status := body.status.getD "todo"
    priority := body.priority.getD "medium"
    assignedTo := body.assignedTo.getD none
    createdBy := creator
    project := body.project.getD ""
    tags := body.tags.getD []
    dueDate := body.dueDate.getD none
    estimatedHours := body.estimatedHours.getD none
    actualHours := body.actualHours.getD 0
    attachments := body.attachments.getD []
    comments := body.comments.getD []
    createdAt := now
    updatedAt := now }

/-- `POST /api/tasks` handler body (lines 361-380): build, validate on save,
append on success; any thrown error is caught in the route itself and
answered with a generic 500 (line 378), so it never reaches `errorHandler`.
The `populate` calls only expand references for display and are omitted. -/
def createTask (body : TaskBody) (now : Nat) :
    JwtPayload → Store → Store × ApiResp TaskRec :=
  fun user db =>
    let t := buildTask body user.userId now db.nextId
    if validTaskRec t then
      ({ db with tasks := db.tasks ++ [t], nextId := db.nextId + 1 },
       .ok 201 t)
    else
      (db, .err 500 "Failed to create task")

/-- The update validators that `findByIdAndUpdate(..., {runValidators:
true})` runs (line 387): the same per-field checks as `validTaskRec`, but
only on the paths present in the update. -/
def taskUpdateValid (b : TaskBody) : Bool :=
  optCheck (fun s => s != "") b.title &&
  optCheck (fun s => s != "") b.description &&
  optCheck (fun s => s != "") b.project &&
  optCheck (fun s => taskStatusEnum.contains s) b.status &&
  optCheck (fun s => taskPriorityEnum.contains s) b.priority &&
  optCheck (optCheck fun h => decide (0 ≤ h)) b.estimatedHours &&
  optCheck (fun h => decide (0 ≤ h)) b.actualHours &&
  optCheck (fun cs => cs.all fun c => c.text != "") b.comments

/-- The document after `findByIdAndUpdate(id, {...req.body, updatedAt: new
Date()})` (line 386): each sent field replaces the stored one, `updatedAt`
is refreshed, everything else is untouched. -/
def applyUpdate (t : TaskRec) (b : TaskBody) (now : Nat) : TaskRec :=
  { id := t.id
    title := b.title.getD t.title
    description := b.description.getD t.description
    status := b.status.getD t.status
    priority := b.priority.getD t.priority
    assignedTo := b.assignedTo.getD t.assignedTo
    createdBy := b.createdBy.getD t.createdBy
    project := b.project.getD t.project
    tags := b.tags.getD t.tags
    dueDate := b.dueDate.getD t.dueDate
    estimatedHours := b.estimatedHours.getD t.estimatedHours
    actualHours := b.actualHours.getD t.actualHours
    attachments := b.attachments.getD t.attachments
    comments := b.comments.getD t.comments
    createdAt := t.createdAt
    updatedAt := now }

/-- `PUT /api/tasks/:id` handler body (lines 382-400).  Mongoose runs the
update validators before the query executes, so an invalid payload throws
(caught in the route, answered 500 at line 398) even when the id does not
exist; a valid payload on a missing id yields `null` and a 404. -/
def updateTask (id : Nat) (body : TaskBody) (now : Nat) :
    JwtPayload → Store → Store × ApiResp TaskRec :=
  fun _user db =>
    if taskUpdateValid body then
      match db.tasks.find? fun t => t.id == id with
      | none => (db, .err 404 "Task not found")
      | some t =>
          let t2 := applyUpdate t body now
          ({ db with tasks := db.tasks.map fun v =>
               if v.id == id then t2 else v },
           .ok 200 t2)
    else
      (db, .err 500 "Failed to update task")

/-- The query string of `GET /api/tasks` (line 332), with the defaults
`page = 1`, `limit = 10`. -/
structure TaskQuery where
  status : Option String
  priority : Option String
  project : Option String
  assignedTo : Option Nat
  page : Nat
  limit : Nat
deriving Repr, DecidableEq

/-- The Mongo filter built at lines 334-338: each supplied query parameter
adds an independent exact-match clause. -/
def taskMatches (q : TaskQuery) (t : TaskRec) : Bool :=
  (match q.status with | none => true | some s => t.status == s) &&
  (match q.priority with | none => true | some p => t.priority == p) &&
  (match q.project with | none => true | some p => t.project == p) &&
  (match q.assignedTo with | none => true | some a => t.assignedTo == some a)

/-- Insert a task into a list already ordered by descending `createdAt`,
keeping that order (and stability). -/
def insertDesc (a : TaskRec) : List TaskRec → List TaskRec
  | [] => [a]
  | b :: l => if b.createdAt ≤ a.createdAt then a :: b :: l else b :: insertDesc a l

/-- Stable insertion sort by descending `createdAt`. -/
def sortByCreatedAtDesc : List TaskRec → List TaskRec
  | [] => []
  | a :: l => insertDesc a (sortByCreatedAtDesc l)

/-- `Task.find(filter).sort({createdAt: -1})`: the matching tasks ordered by
descending creation time (a stable sort stands in for the store's order). -/
def sortedFiltered (db : Store) (q : TaskQuery) : List TaskRec :=
  sortByCreatedAtDesc (db.tasks.filter (taskMatches q))

/-- The body of the `GET /api/tasks` 200 response (lines 350-355). -/
structure TaskListResult where
  tasks : List TaskRec
  totalPages : Nat
  currentPage : Nat
  total : Nat
deriving Repr, DecidableEq

/-- `GET /api/tasks` handler body (lines 330-359): filter, sort, then
`.skip((page - 1) * limit).limit(limit)` (Mongo applies skip before limit
regardless of call order), a separate `countDocuments(filter)` for `total`,
and `Math.ceil(total / limit)` for `totalPages` (embedded as the equivalent
`(total + limit - 1) / limit` on `Nat`). -/
def listTasksResult (db : Store) (q : TaskQuery) : TaskListResult :=
  let total := (db.tasks.filter (taskMatches q)).length
  { tasks := ((sortedFiltered db q).drop ((q.page - 1) * q.limit)).take q.limit
    totalPages := (total + q.limit - 1) / q.limit
    currentPage := q.page
    total := total }

/-- The routed form of `GET /api/tasks`: reads the store, never writes. -/
def getTasks (q : TaskQuery) :
    JwtPayload → Store → Store × ApiResp TaskListResult :=
  fun _user db => (db, .ok 200 (listTasksResult db q))

/-! ## Analytics route (server.js lines 449-493) -/

/-- The `summary` object of `GET /api/analytics/dashboard` (lines 476-483).
`completionRate` is produced by `(completed / total * 100).toFixed(1)`,
a decimal string with one fractional digit; it is represented here by its
value in tenths of a percent (`"66.7"` ↦ 667), with `toFixed` rounding to
the nearest tenth, halves away from zero, embedded as
`(2 * completed * 1000 + total) / (2 * total)` on `Nat`. -/
structure DashboardSummary where
  totalTasks : Nat
  completedTasks : Nat
  totalProjects : Nat
  activeProjects : Nat
  completionRateTenths : Nat
deriving Repr, DecidableEq

/-- The summary computation of the dashboard handler: the four
`countDocuments` calls (lines 460-463) and the completion-rate expression
(line 482), which is `0` when there are no tasks. -/
def dashboardSummary (db : Store) : DashboardSummary :=
  let total := db.tasks.length
  let completed := (db.tasks.filter fun t => t.status == "completed").length
  { totalTasks := total
    completedTasks := completed
    totalProjects := db.projects.length
    activeProjects := (db.projects.filter fun p => p.status == "active").length
    completionRateTenths :=
      if 0 < total then (2 * (completed * 1000) + total) / (2 * total) else 0 }

/-! ## Concrete sample data, used to instantiate the theorems -/

/-- A store with nothing in it. -/
def dbEmpty : Store := ⟨[], [], [], 0⟩

/-- A small task document, parametrized by id, status and creation time. -/
def sampleTask (id : Nat) (status : String) (created : Nat) : TaskRec :=
  { id := id, title := "t", description := "d", status := status
    priority := "low", assignedTo := none, createdBy := 1, project := "p"
    tags := [], dueDate := none, estimatedHours := none, actualHours := 0
    attachments := [], comments := [], createdAt := created, updatedAt := created }

/-- Three tasks, one of them completed. -/
def dbThreeTasks : Store :=
  ⟨[], [], [sampleTask 0 "completed" 3, sampleTask 1 "todo" 5, sampleTask 2 "todo" 7], 3⟩

/-- One task, not yet completed. -/
def dbOneTask : Store := ⟨[], [], [sampleTask 0 "todo" 3], 1⟩

/-- An active user whose stored (lowercased) email is the bare string
`"bob"` — the schema does not validate email shape. -/
def bobRecord : UserRec :=
  ⟨0, "bobby", "bob", bcryptHash "hunter2" 12 0, "Bob", "B", "user", true, none, 0, 0⟩

/-- A store holding only `bobRecord`. -/
def dbWithBob : Store := ⟨[bobRecord], [], [], 1⟩

/-- A registration payload whose username collides with `bobRecord`'s
email. -/
def aliceBody : RegisterBody :=
  ⟨some "bob", some "alice@x.com", some "secret1", some "A", some "L"⟩

/-- A deactivated user with a known password hash. -/
def inactiveUser : UserRec :=
  ⟨0, "carol", "carol@x.com", bcryptHash "hunter2" 12 0, "C", "D", "user", false, none, 0, 0⟩

/-- A store holding only `inactiveUser`. -/
def dbWithInactive : Store := ⟨[inactiveUser], [], [], 1⟩

/-- A create payload with all required fields but a status outside the
enum. -/
def badStatusBody : TaskBody :=
  { emptyTaskBody with
    title := some "T"
    description := some "D"
    project := some "P"
    status := some "bogus" }

/-- A partial update payload that only sets the status. -/
def updBody : TaskBody := { emptyTaskBody with status := some "completed" }

/-- A registration payload with no email field. -/
def noEmailBody : RegisterBody :=
  ⟨some "x", none, some "longpass", some "F", some "L"⟩

/-- A well-formed create payload that also (illegitimately) claims creator
99. -/
def creatorBody : TaskBody :=
  { emptyTaskBody with
    title := some "T"
    description := some "D"
    project := some "P"
    createdBy := some 99 }

/-! ## Arithmetic helpers -/

/-- Half-up rounding by natural division agrees with `round` on `ℚ`: the
`Nat` expression embedding `toFixed`'s rounding computes the rounded
quotient. -/
theorem natHalfUpDiv_eq_round (a b : Nat) (hb : 0 < b) :
    (((2 * a + b) / (2 * b) : Nat) : ℤ) = round ((a : ℚ) / (b : ℚ)) := by
  have hbQ : ((2 * b : Nat) : ℚ) ≠ 0 := by
    push_cast
    positivity
  rw [round_eq]
  have h2 : (a : ℚ) / (b : ℚ) + 1 / 2 = ((2 * a + b : Nat) : ℚ) / ((2 * b : Nat) : ℚ) := by
    have hb0 : (b : ℚ) ≠ 0 := by positivity
    push_cast
    field_simp
    ring
  rw [h2, Rat.floor_natCast_div_natCast]
  push_cast
  rfl

/-- Ceiling by the `(n + d - 1) / d` trick on `Nat` agrees with `⌈⌉` on
`ℚ`: the embedding of `Math.ceil(total / limit)`. -/
theorem natCeilDiv_eq_ceil (n d : Nat) (hd : 0 < d) :
    (((n + d - 1) / d : Nat) : ℤ) = ⌈(n : ℚ) / (d : ℚ)⌉ := by
  have hmod := Nat.div_add_mod (n + d - 1) d
  have hlt : (n + d - 1) % d < d := Nat.mod_lt _ hd
  have h3 : n ≤ d * ((n + d - 1) / d) := by omega
  have h4 : d * ((n + d - 1) / d) < n + d := by omega
  have hdQ : (0 : ℚ) < (d : ℚ) := by positivity
  have h3Q : (n : ℚ) ≤ (d : ℚ) * ((n + d - 1) / d : Nat) := by exact_mod_cast h3
  have h4Q : (d : ℚ) * ((n + d - 1) / d : Nat) < (n : ℚ) + (d : ℚ) := by exact_mod_cast h4
  have hz : ((((n + d - 1) / d : Nat) : ℤ) : ℚ) = (((n + d - 1) / d : Nat) : ℚ) := by
    push_cast
    rfl
  symm
  rw [Int.ceil_eq_iff]
  rw [hz]
  constructor
  · rw [lt_div_iff₀ hdQ]
    nlinarith [h4Q]
  · rw [div_le_iff₀ hdQ]
    nlinarith [h3Q]

/-! ## Claim theorems -/

/-- C1: for every authenticated task-creation request, the created task's
`createdBy` equals the authenticated caller's user id from the verified
token, regardless of any client-sent `createdBy`: a successful create
appends a task stamped with the caller's id, and the handler's outcome is
unchanged by whatever `createdBy` the request body carries.  The composed
route shows the identity comes from the verified token. -/
theorem createTask_stamps_creator (body : TaskBody) (u : JwtPayload)
    (db : Store) (now : Nat) :
    (∀ db2 t, createTask body now u db = (db2, .ok 201 t) →
        t.createdBy = u.userId ∧ db2.tasks = db.tasks ++ [t]) ∧
    (∀ v, createTask { body with createdBy := v } now u db
        = createTask body now u db) ∧
    (∀ tk secret, jwtVerify tk secret now = some u →
        runProtected (.present tk) secret now (createTask body now) db
          = createTask body now u db) := by
  refine ⟨?_, ?_, ?_⟩
  · intro db2 t h
    simp only [createTask] at h
    split at h
    · rw [Prod.mk.injEq] at h
      obtain ⟨h1, h2⟩ := h
      rw [ApiResp.ok.injEq] at h2
      cases h2.2
      refine ⟨rfl, ?_⟩
      rw [← h1]
    · cases h
  · intro v
    have hb : buildTask { body with createdBy := v } u.userId now db.nextId
        = buildTask body u.userId now db.nextId := rfl
    simp only [createTask, hb]
  · intro tk secret hv
    simp [runProtected, authenticateToken, hv]

/-- Witness for `createTask_stamps_creator`: a concrete valid create on the
empty store, by the caller with id 7 and a body claiming creator 99, yields
a task created by 7. -/
theorem createTask_stamps_creator_witness :
    createTask creatorBody 0 ⟨7, "alice"⟩ dbEmpty
      = (⟨[], [], [buildTask creatorBody 7 0 0], 1⟩,
         .ok 201 (buildTask creatorBody 7 0 0)) ∧
    (buildTask creatorBody 7 0 0).createdBy = 7 := by
  refine ⟨by decide, ?_⟩
  have h := (createTask_stamps_creator creatorBody ⟨7, "alice"⟩ dbEmpty 0).1
    ⟨[], [], [buildTask creatorBody 7 0 0], 1⟩ (buildTask creatorBody 7 0 0)
    (by decide)
  exact h.1

/-- C2: for every protected route: with no bearer token the middleware
answers 401 and the handler never runs (the store is untouched and the
response does not depend on the handler); with a token failing verification
it answers 403, again without running the handler; with a valid token the
decoded identity is handed to the handler, which runs.  Verification fails
exactly on malformed, wrongly-signed, or expired tokens. -/
theorem auth_gate_behavior (α : Type)
    (handler : JwtPayload → Store → Store × ApiResp α)
    (secret : String) (now : Nat) (db : Store) :
    runProtected .absent secret now handler db
      = (db, .err 401 "Access token required") ∧
    (∀ tk, jwtVerify tk secret now = none →
        runProtected (.present tk) secret now handler db
          = (db, .err 403 "Invalid or expired token")) ∧
    (∀ tk u, jwtVerify tk secret now = some u →
        runProtected (.present tk) secret now handler db = handler u db) ∧
    jwtVerify .malformed secret now = none ∧
    (∀ uid uname s e, s ≠ secret →
        jwtVerify (.signed uid uname s e) secret now = none) ∧
    (∀ uid uname e, e ≤ now →
        jwtVerify (.signed uid uname secret e) secret now = none) := by
  refine ⟨rfl, ?_, ?_, rfl, ?_, ?_⟩
  · intro tk hv
    simp [runProtected, authenticateToken, hv]
  · intro tk u hv
    simp [runProtected, authenticateToken, hv]
  · intro uid uname s e hs
    simp [jwtVerify, hs]
  · intro uid uname e he
    simp [jwtVerify]
    omega

/-- Witness for `auth_gate_behavior`: on the empty store with a trivial
handler, a missing token gives 401, a malformed and an expired token give
403, and a valid fresh token runs the handler with the decoded claims. -/
theorem auth_gate_behavior_witness :
    runProtected .absent jwtSecret 5
        (fun u db => (db, .ok 200 u.userId)) dbEmpty
      = (dbEmpty, .err 401 "Access token required") ∧
    runProtected (.present .malformed) jwtSecret 5
        (fun u db => (db, .ok 200 u.userId)) dbEmpty
      = (dbEmpty, .err 403 "Invalid or expired token") ∧
    runProtected (.present (.signed 7 "alice" jwtSecret 5)) jwtSecret 5
        (fun u db => (db, .ok 200 u.userId)) dbEmpty
      = (dbEmpty, .err 403 "Invalid or expired token") ∧
    runProtected (.present (jwtSign 7 "alice" jwtSecret 5)) jwtSecret 5
        (fun u db => (db, .ok 200 u.userId)) dbEmpty
      = (dbEmpty, .ok 200 7) := by
  obtain ⟨h1, h2, h3, -, -, h6⟩ := auth_gate_behavior Nat
    (fun u db => (db, .ok 200 u.userId)) jwtSecret 5 dbEmpty
  exact ⟨h1, h2 _ (by decide), h2 _ (h6 7 "alice" 5 (by decide)),
    h3 _ ⟨7, "alice"⟩ (by decide)⟩

/-- C3 counterexample: a create whose payload fails the schema's enum
validation (status `"bogus"`) is answered with the route's own generic 500,
not with the centralized translator's 400 — the route's catch block swallows
the validation error. -/
theorem validation_error_returns_500_counterexample :
    validTaskRec (buildTask badStatusBody 1 0 0) = false ∧
    createTask badStatusBody 0 ⟨1, "alice"⟩ dbEmpty
      = (dbEmpty, .err 500 "Failed to create task") := by
  constructor
  · decide
  · decide

/-- C3 (amended): the centralized `errorHandler` does map a ValidationError
to 400 with field-level detail, a duplicate-key error to 400 naming the
field, and anything else to 500 — but the task create/update routes catch
their own errors, so a payload failing validation is answered with a
generic 500 from the route and never reaches the translator. -/
theorem errorHandler_mapping_but_routes_swallow :
    (∀ msgs, errorHandler (.validationError msgs)
        = ⟨400, "Validation Error", msgs, none⟩) ∧
    (∀ f, errorHandler (.duplicateKey f)
        = ⟨400, "Duplicate entry", [], some f⟩) ∧
    (∀ m, errorHandler (.other m) = ⟨500, "Internal server error", [], none⟩) ∧
    (∀ body now u db,
        validTaskRec (buildTask body u.userId now db.nextId) = false →
        createTask body now u db = (db, .err 500 "Failed to create task")) ∧
    (∀ id body now u db, taskUpdateValid body = false →
        updateTask id body now u db = (db, .err 500 "Failed to update task")) := by
  refine ⟨fun _ => rfl, fun _ => rfl, fun _ => rfl, ?_, ?_⟩
  · intro body now u db hv
    simp only [createTask]
    rw [hv]
    simp
  · intro id body now u db hv
    simp only [updateTask]
    rw [hv]
    simp

/-- Witness for `errorHandler_mapping_but_routes_swallow`: the invalid
payload `badStatusBody` makes both the create and the update route answer
500. -/
theorem errorHandler_mapping_witness :
    validTaskRec (buildTask badStatusBody 1 0 0) = false ∧
    createTask badStatusBody 0 ⟨1, "alice"⟩ dbOneTask
      = (dbOneTask, .err 500 "Failed to create task") ∧
    updateTask 0 badStatusBody 9 ⟨1, "alice"⟩ dbOneTask
      = (dbOneTask, .err 500 "Failed to update task") := by
  obtain ⟨-, -, -, h4, h5⟩ := errorHandler_mapping_but_routes_swallow
  exact ⟨by decide, h4 badStatusBody 0 ⟨1, "alice"⟩ dbOneTask (by decide),
    h5 0 badStatusBody 9 ⟨1, "alice"⟩ dbOneTask (by decide)⟩

/-- C4: in the analytics summary, `totalTasks` and `completedTasks` are the
true counts, and the completion rate (in tenths of a percent, the value
`toFixed(1)` prints) is `completed / total * 100` rounded to one decimal
place when there are tasks, and `0` when there are none. -/
theorem completionRate_rounded (db : Store) :
    (dashboardSummary db).totalTasks = db.tasks.length ∧
    (dashboardSummary db).completedTasks
      = (db.tasks.filter fun t => t.status == "completed").length ∧
    (0 < (dashboardSummary db).totalTasks →
      ((dashboardSummary db).completionRateTenths : ℤ)
        = round (((dashboardSummary db).completedTasks : ℚ)
            / ((dashboardSummary db).totalTasks : ℚ) * 100 * 10)) ∧
    ((dashboardSummary db).totalTasks = 0 →
      (dashboardSummary db).completionRateTenths = 0) := by
  refine ⟨rfl, rfl, ?_, ?_⟩
  · intro hpos
    have hpos' : 0 < db.tasks.length := hpos
    simp only [dashboardSummary]
    rw [if_pos hpos']
    rw [natHalfUpDiv_eq_round
      ((db.tasks.filter fun t => t.status == "completed").length * 1000)
      db.tasks.length hpos']
    congr 1
    push_cast
    ring
  · intro hz
    have hz' : db.tasks.length = 0 := hz
    simp only [dashboardSummary]
    rw [if_neg (by omega)]

/-- Witness for `completionRate_rounded`: with three tasks of which one is
completed, the summary reports 33.3 percent, which is `round(1/3*1000)`. -/
theorem completionRate_rounded_witness :
    0 < (dashboardSummary dbThreeTasks).totalTasks ∧
    (dashboardSummary dbThreeTasks).completionRateTenths = 333 ∧
    ((dashboardSummary dbThreeTasks).completionRateTenths : ℤ)
      = round (((dashboardSummary dbThreeTasks).completedTasks : ℚ)
          / ((dashboardSummary dbThreeTasks).totalTasks : ℚ) * 100 * 10) :=
  ⟨by decide, by decide, (completionRate_rounded dbThreeTasks).2.2.1 (by decide)⟩

/-- Membership is preserved by sorted insertion. -/
theorem mem_insertDesc {t a : TaskRec} {l : List TaskRec} :
    t ∈ insertDesc a l ↔ t = a ∨ t ∈ l := by
  induction l with
  | nil => simp [insertDesc]
  | cons b l ih =>
      simp only [insertDesc]
      split
      · simp [or_comm, or_assoc, or_left_comm]
      · simp [ih]
        tauto

/-- Sorting by descending creation time preserves membership. -/
theorem mem_sortByCreatedAtDesc {t : TaskRec} {l : List TaskRec} :
    t ∈ sortByCreatedAtDesc l ↔ t ∈ l := by
  induction l with
  | nil => simp [sortByCreatedAtDesc]
  | cons a l ih =>
      simp only [sortByCreatedAtDesc, mem_insertDesc, ih, List.mem_cons]

/-- C5: listing with `status=completed&page=1&limit=10` returns only
completed tasks, at most 10 of them, with `total` the true completed count;
for any query with a positive limit, `totalPages` is `⌈total / limit⌉`; and
pagination is 1-based: page `p` takes the window after dropping
`(p - 1) * limit` matching tasks (in the sorted order). -/
theorem listTasks_completed_filter (db : Store) :
    (∀ t ∈ (listTasksResult db ⟨some "completed", none, none, none, 1, 10⟩).tasks,
        t.status = "completed") ∧
    (listTasksResult db ⟨some "completed", none, none, none, 1, 10⟩).tasks.length ≤ 10 ∧
    (listTasksResult db ⟨some "completed", none, none, none, 1, 10⟩).total
      = (db.tasks.filter fun t => t.status == "completed").length ∧
    (∀ q : TaskQuery, 0 < q.limit →
        ((listTasksResult db q).totalPages : ℤ)
          = ⌈((listTasksResult db q).total : ℚ) / (q.limit : ℚ)⌉) ∧
    (∀ p lim, (listTasksResult db ⟨some "completed", none, none, none, p, lim⟩).tasks
        = ((sortedFiltered db ⟨some "completed", none, none, none, p, lim⟩).drop
            ((p - 1) * lim)).take lim) := by
  refine ⟨?_, ?_, ?_, ?_, fun p lim => rfl⟩
  · intro t ht
    have h1 : t ∈ sortedFiltered db ⟨some "completed", none, none, none, 1, 10⟩ :=
      List.mem_of_mem_drop (List.mem_of_mem_take ht)
    have h2 : t ∈ db.tasks.filter
        (taskMatches ⟨some "completed", none, none, none, 1, 10⟩) :=
      mem_sortByCreatedAtDesc.1 h1
    have h3 := (List.mem_filter.1 h2).2
    simp only [taskMatches, Bool.and_eq_true, beq_iff_eq] at h3
    exact h3.1.1.1
  · exact List.length_take_le 10 _
  · simp only [listTasksResult]
    rw [List.filter_congr]
    intro t _
    simp [taskMatches]
  · intro q hq
    simp only [listTasksResult]
    exact natCeilDiv_eq_ceil _ q.limit hq

/-- Witness for `listTasks_completed_filter`: on the three-task store the
completed filter returns the single completed task, and `totalPages` is
`⌈1 / 10⌉ = 1`. -/
theorem listTasks_completed_filter_witness :
    (listTasksResult dbThreeTasks ⟨some "completed", none, none, none, 1, 10⟩).tasks
      = [sampleTask 0 "completed" 3] ∧
    (listTasksResult dbThreeTasks ⟨some "completed", none, none, none, 1, 10⟩).total = 1 ∧
    0 < (10 : Nat) ∧
    (((listTasksResult dbThreeTasks ⟨some "completed", none, none, none, 1, 10⟩).totalPages : ℤ)
      = ⌈((listTasksResult dbThreeTasks ⟨some "completed", none, none, none, 1, 10⟩).total : ℚ)
          / ((10 : Nat) : ℚ)⌉) :=
  ⟨by decide, by decide, by decide,
    (listTasks_completed_filter dbThreeTasks).2.2.2.1
      ⟨some "completed", none, none, none, 1, 10⟩ (by decide)⟩

/-- A destructured field that passed the truthiness check stays truthy when
re-wrapped around its default. -/
theorem truthy_getD {o : Option String} (h : truthy o = true) :
    truthy (some (o.getD "")) = true := by
  cases o with
  | none => exact absurd h (by simp [truthy])
  | some s => exact h

/-- C6: a valid registration answers 201 with a user object that has no
password field (the projection `publicOf` carries id, username, email,
names and role only, and is independent of the stored password), while the
stored record's password field holds the salted hash of the plaintext,
never the plaintext. -/
theorem register_response_and_stored_password (db : Store) (b : RegisterBody)
    (now salt : Nat)
    (h1 : truthy b.username = true) (h2 : truthy b.email = true)
    (h3 : truthy b.password = true) (h4 : truthy b.firstName = true)
    (h5 : truthy b.lastName = true)
    (h6 : ¬ (b.password.getD "").length < 6)
    (h7 : (db.users.find? fun u =>
        u.email == emailKey (b.email.getD "") ||
        u.username == b.username.getD "") = none) :
    register db b now salt
      = ({ db with
            users := db.users ++ [newUserRec db b now salt]
            nextId := db.nextId + 1 },
         .created (jwtSign db.nextId (b.username.getD "") jwtSecret now)
           (publicOf (newUserRec db b now salt))) ∧
    (newUserRec db b now salt).password
      = bcryptHash (b.password.getD "") 12 salt ∧
    (∀ u : UserRec, ∀ p, publicOf { u with password := p } = publicOf u) := by
  refine ⟨?_, rfl, fun u p => rfl⟩
  have hneg1 : ¬((!(truthy b.username && truthy b.email && truthy b.password &&
      truthy b.firstName && truthy b.lastName)) = true) := by
    simp [h1, h2, h3, h4, h5]
  have hneg3 : ¬(((db.users.find? fun u =>
      u.email == emailKey (b.email.getD "") ||
      u.username == b.username.getD "").isSome) = true) := by
    simp [h7]
  unfold register
  rw [if_neg hneg1, if_neg h6, if_neg hneg3]
  rfl

/-- Witness for `register_response_and_stored_password`: registering alice
on the empty store stores the hash of `"secret1"` and answers with the
password-free projection. -/
theorem register_response_witness :
    register dbEmpty aliceBody 0 1
      = (⟨[newUserRec dbEmpty aliceBody 0 1], [], [], 1⟩,
         .created (jwtSign 0 "bob" jwtSecret 0)
           (publicOf (newUserRec dbEmpty aliceBody 0 1))) ∧
    (newUserRec dbEmpty aliceBody 0 1).password = bcryptHash "secret1" 12 1 := by
  have h := register_response_and_stored_password dbEmpty aliceBody 0 1
    (by decide) (by decide) (by decide) (by decide) (by decide)
    (by decide) (by decide)
  exact ⟨h.1, h.2.1⟩

/-- The successful branch of the login handler: when the credential check
passes on a found, active user, the handler refreshes `lastLogin`, saves,
and issues a fresh token. -/
theorem login_found_active (db : Store) (username password : Option String)
    (now : Nat) (u : UserRec)
    (h1 : truthy username = true) (h2 : truthy password = true)
    (hfind : (db.users.find? fun v =>
        v.username == username.getD "" ||
        v.email == emailKey (username.getD "")) = some u)
    (hact : u.isActive = true)
    (hcmp : bcryptCompare (password.getD "") u.password = true) :
    login db username password now
      = ({ db with users := db.users.map fun v =>
             if v.id == u.id then { u with lastLogin := some now } else v },
         .ok (jwtSign u.id u.username jwtSecret now)
           (publicOf { u with lastLogin := some now }) now) := by
  unfold login
  rw [if_neg (by simp [h1, h2])]
  simp [hfind, hact, hcmp]

/-- C7 counterexample: on a store already holding a user whose (stored)
email is the bare string `"bob"`, registering a fresh account with username
`"bob"` succeeds, yet logging in with that username and the correct
password is answered 401: the login lookup matches the older user's email
first and compares against the wrong hash. -/
theorem register_then_login_counterexample :
    (register dbWithBob aliceBody 0 1).2
      = .created (jwtSign 1 "bob" jwtSecret 0)
          (publicOf (newUserRec dbWithBob aliceBody 0 1)) ∧
    (login (register dbWithBob aliceBody 0 1).1
        (some "bob") (some "secret1") 5).2
      = .failure 401 "Invalid credentials" := by
  exact ⟨by decide, by decide⟩

/-- C7 (amended): after a successful registration, a login with the same
username and plaintext password succeeds — password verification against
the stored hash returns true and a token is issued — provided no
previously-stored user's email equals the (lowercased) new username; a
login with the same email succeeds provided no previously-stored user's
username equals the email string.  (The login lookup matches the
identifier against both the username and the email columns of every user,
first match wins, so such collisions divert it; the counterexample shows
the unqualified claim fails.) -/
theorem register_then_login_succeeds (db : Store) (b : RegisterBody)
    (now salt now2 : Nat)
    (h1 : truthy b.username = true) (h2 : truthy b.email = true)
    (h3 : truthy b.password = true) (h4 : truthy b.firstName = true)
    (h5 : truthy b.lastName = true)
    (h6 : ¬ (b.password.getD "").length < 6)
    (h7 : ∀ u ∈ db.users, u.email ≠ emailKey (b.email.getD "") ∧
        u.username ≠ b.username.getD "")
    (h8 : ∀ u ∈ db.users, u.email ≠ emailKey (b.username.getD ""))
    (h9 : ∀ u ∈ db.users, u.username ≠ b.email.getD "") :
    bcryptCompare (b.password.getD "")
      (newUserRec db b now salt).password = true ∧
    (login (register db b now salt).1 (some (b.username.getD ""))
        (some (b.password.getD "")) now2).2
      = .ok (jwtSign db.nextId (b.username.getD "") jwtSecret now2)
          (publicOf { newUserRec db b now salt with lastLogin := some now2 })
          now2 ∧
    (login (register db b now salt).1 (some (b.email.getD ""))
        (some (b.password.getD "")) now2).2
      = .ok (jwtSign db.nextId (b.username.getD "") jwtSecret now2)
          (publicOf { newUserRec db b now salt with lastLogin := some now2 })
          now2 := by
  have hcmp : bcryptCompare (b.password.getD "")
      (newUserRec db b now salt).password = true := by
    simp [newUserRec, bcryptCompare, bcryptHash]
  have hfind0 : (db.users.find? fun u =>
      u.email == emailKey (b.email.getD "") ||
      u.username == b.username.getD "") = none := by
    rw [List.find?_eq_none]
    intro u hu
    obtain ⟨ha, hb⟩ := h7 u hu
    simp [ha, hb]
  have hreg : (register db b now salt).1
      = ⟨db.users ++ [newUserRec db b now salt], db.projects, db.tasks,
         db.nextId + 1⟩ := by
    have hneg1 : ¬((!(truthy b.username && truthy b.email &&
        truthy b.password && truthy b.firstName && truthy b.lastName)) = true) := by
      simp [h1, h2, h3, h4, h5]
    unfold register
    rw [if_neg hneg1, if_neg h6, if_neg (by simp [hfind0])]
  have husername : truthy (some (b.username.getD "")) = true := truthy_getD h1
  have hemail : truthy (some (b.email.getD "")) = true := truthy_getD h2
  have hpw : truthy (some (b.password.getD "")) = true := truthy_getD h3
  have hfind1 : ((db.users ++ [newUserRec db b now salt]).find? fun v =>
      v.username == b.username.getD "" ||
      v.email == emailKey (b.username.getD "")) = some (newUserRec db b now salt) := by
    rw [List.find?_append]
    have hl : (db.users.find? fun v =>
        v.username == b.username.getD "" ||
        v.email == emailKey (b.username.getD "")) = none := by
      rw [List.find?_eq_none]
      intro u hu
      obtain ⟨-, hn⟩ := h7 u hu
      simp [hn, h8 u hu]
    rw [hl]
    simp [List.find?, newUserRec]
  have hfind2 : ((db.users ++ [newUserRec db b now salt]).find? fun v =>
      v.username == b.email.getD "" ||
      v.email == emailKey (b.email.getD "")) = some (newUserRec db b now salt) := by
    rw [List.find?_append]
    have hl : (db.users.find? fun v =>
        v.username == b.email.getD "" ||
        v.email == emailKey (b.email.getD "")) = none := by
      rw [List.find?_eq_none]
      intro u hu
      obtain ⟨ha, -⟩ := h7 u hu
      simp [ha, h9 u hu]
    rw [hl]
    simp [List.find?, newUserRec]
  refine ⟨hcmp, ?_, ?_⟩
  · rw [hreg]
    rw [login_found_active
      ⟨db.users ++ [newUserRec db b now salt], db.projects, db.tasks,
        db.nextId + 1⟩
      (some (b.username.getD "")) (some (b.password.getD "")) now2
      (newUserRec db b now salt) husername hpw hfind1 rfl hcmp]
    rfl
  · rw [hreg]
    rw [login_found_active
      ⟨db.users ++ [newUserRec db b now salt], db.projects, db.tasks,
        db.nextId + 1⟩
      (some (b.email.getD "")) (some (b.password.getD "")) now2
      (newUserRec db b now salt) hemail hpw hfind2 rfl hcmp]
    rfl

/-- Witness for `register_then_login_succeeds`: on the empty store, alice
registers and then logs in successfully with her username and with her
email. -/
theorem register_then_login_witness :
    bcryptCompare "secret1" (newUserRec dbEmpty aliceBody 0 1).password = true ∧
    (login (register dbEmpty aliceBody 0 1).1 (some "bob") (some "secret1") 5).2
      = .ok (jwtSign 0 "bob" jwtSecret 5)
          (publicOf { newUserRec dbEmpty aliceBody 0 1 with lastLogin := some 5 }) 5 ∧
    (login (register dbEmpty aliceBody 0 1).1 (some "alice@x.com")
        (some "secret1") 5).2
      = .ok (jwtSign 0 "bob" jwtSecret 5)
          (publicOf { newUserRec dbEmpty aliceBody 0 1 with lastLogin := some 5 }) 5 :=
  register_then_login_succeeds dbEmpty aliceBody 0 1 5
    (by decide) (by decide) (by decide) (by decide) (by decide) (by decide)
    (by decide) (by decide) (by decide)

/-- A per-field update validator accepts the merged value whenever it
accepts the supplied value and the stored one was already acceptable. -/
theorem optCheck_getD {α : Type} (p : α → Bool) (o : Option α) (d : α)
    (ho : optCheck p o = true) (hd : p d = true) : p (o.getD d) = true := by
  cases o with
  | none => simpa using hd
  | some x => simpa [optCheck] using ho

/-- C8: a partial update on an existing id rewrites exactly the supplied
fields (each field of the updated document is the supplied value or, when
not supplied, the previous one), refreshes `updatedAt`, leaves `createdAt`
and the id alone, and replaces only that document in the store; the update
validators are the same per-field checks as creation, so a valid document
stays valid; and a valid update on a nonexistent id is answered 404 with
the store unchanged. -/
theorem updateTask_partial (db : Store) (id : Nat) (body : TaskBody)
    (now : Nat) (u : JwtPayload) (t : TaskRec)
    (hfind : (db.tasks.find? fun x => x.id == id) = some t)
    (hvalid : taskUpdateValid body = true) :
    updateTask id body now u db
      = ({ db with tasks := db.tasks.map fun v =>
             if v.id == id then applyUpdate t body now else v },
         .ok 200 (applyUpdate t body now)) ∧
    (applyUpdate t body now).updatedAt = now ∧
    (applyUpdate t body now).createdAt = t.createdAt ∧
    (applyUpdate t body now).id = t.id ∧
    (applyUpdate t body now).title = body.title.getD t.title ∧
    (applyUpdate t body now).description = body.description.getD t.description ∧
    (applyUpdate t body now).status = body.status.getD t.status ∧
    (applyUpdate t body now).priority = body.priority.getD t.priority ∧
    (applyUpdate t body now).assignedTo = body.assignedTo.getD t.assignedTo ∧
    (applyUpdate t body now).createdBy = body.createdBy.getD t.createdBy ∧
    (applyUpdate t body now).project = body.project.getD t.project ∧
    (applyUpdate t body now).tags = body.tags.getD t.tags ∧
    (applyUpdate t body now).dueDate = body.dueDate.getD t.dueDate ∧
    (applyUpdate t body now).estimatedHours
      = body.estimatedHours.getD t.estimatedHours ∧
    (applyUpdate t body now).actualHours = body.actualHours.getD t.actualHours ∧
    (applyUpdate t body now).attachments = body.attachments.getD t.attachments ∧
    (applyUpdate t body now).comments = body.comments.getD t.comments ∧
    (validTaskRec t = true → validTaskRec (applyUpdate t body now) = true) ∧
    (∀ db2 : Store, (db2.tasks.find? fun x => x.id == id) = none →
        updateTask id body now u db2 = (db2, .err 404 "Task not found")) := by
  refine ⟨?_, rfl, rfl, rfl, rfl, rfl, rfl, rfl, rfl, rfl, rfl, rfl, rfl, rfl,
    rfl, rfl, rfl, ?_, ?_⟩
  · simp only [updateTask, hvalid, if_true, hfind]
  · intro ht
    simp only [taskUpdateValid, Bool.and_eq_true] at hvalid
    obtain ⟨⟨⟨⟨⟨⟨⟨hbt, hbd⟩, hbp⟩, hbs⟩, hbr⟩, hbe⟩, hba⟩, hbc⟩ := hvalid
    simp only [validTaskRec, Bool.and_eq_true] at ht
    obtain ⟨⟨⟨⟨⟨⟨⟨htt, htd⟩, htp⟩, hts⟩, htr⟩, hte⟩, hta⟩, htc⟩ := ht
    simp only [validTaskRec, applyUpdate, Bool.and_eq_true]
    exact ⟨⟨⟨⟨⟨⟨⟨optCheck_getD _ body.title t.title hbt htt,
      optCheck_getD _ body.description t.description hbd htd⟩,
      optCheck_getD _ body.project t.project hbp htp⟩,
      optCheck_getD _ body.status t.status hbs hts⟩,
      optCheck_getD _ body.priority t.priority hbr htr⟩,
      optCheck_getD _ body.estimatedHours t.estimatedHours hbe hte⟩,
      optCheck_getD _ body.actualHours t.actualHours hba hta⟩,
      optCheck_getD _ body.comments t.comments hbc htc⟩
  · intro db2 h2
    simp only [updateTask, hvalid, if_true, h2]

/-- Witness for `updateTask_partial`: on the one-task store, updating task 0
to completed changes only the status and timestamp, and the same update on
the empty store is a 404. -/
theorem updateTask_partial_witness :
    updateTask 0 updBody 9 ⟨1, "alice"⟩ dbOneTask
      = (⟨[], [], [applyUpdate (sampleTask 0 "todo" 3) updBody 9], 1⟩,
         .ok 200 (applyUpdate (sampleTask 0 "todo" 3) updBody 9)) ∧
    (applyUpdate (sampleTask 0 "todo" 3) updBody 9).status = "completed" ∧
    (applyUpdate (sampleTask 0 "todo" 3) updBody 9).title = "t" ∧
    (applyUpdate (sampleTask 0 "todo" 3) updBody 9).updatedAt = 9 ∧
    updateTask 0 updBody 9 ⟨1, "alice"⟩ dbEmpty
      = (dbEmpty, .err 404 "Task not found") := by
  obtain ⟨h1, -⟩ := updateTask_partial dbOneTask 0 updBody 9 ⟨1, "alice"⟩
    (sampleTask 0 "todo" 3) (by decide) (by decide)
  obtain ⟨-, h404⟩ := updateTask_partial dbOneTask 0 updBody 9 ⟨1, "alice"⟩
    (sampleTask 0 "todo" 3) (by decide) (by decide) |>.2.2.2.2.2.2.2.2.2.2.2.2.2.2.2.2.2
  exact ⟨h1.trans (by decide), by decide, by decide, by decide,
    h404 dbEmpty (by decide)⟩

/-- C9: a login that finds a user whose `isActive` flag is false is rejected
with 401 and the same generic `"Invalid credentials"` body used for a wrong
password, the store (hence the record) is unchanged, and no token is issued
— whatever the supplied password is. -/
theorem login_inactive_rejected (db : Store) (username password : Option String)
    (now : Nat) (u : UserRec)
    (h1 : truthy username = true) (h2 : truthy password = true)
    (hfind : (db.users.find? fun v =>
        v.username == username.getD "" ||
        v.email == emailKey (username.getD "")) = some u)
    (hinactive : u.isActive = false) :
    login db username password now = (db, .failure 401 "Invalid credentials") := by
  unfold login
  rw [if_neg (by simp [h1, h2])]
  simp [hfind, hinactive]

/-- Witness for `login_inactive_rejected`: carol's account is deactivated;
login with her correct password (`bcrypt.compare` would accept it) is still
a generic 401 and the store is unchanged. -/
theorem login_inactive_witness :
    bcryptCompare "hunter2" inactiveUser.password = true ∧
    login dbWithInactive (some "carol") (some "hunter2") 9
      = (dbWithInactive, .failure 401 "Invalid credentials") :=
  ⟨by decide, login_inactive_rejected dbWithInactive (some "carol")
    (some "hunter2") 9 inactiveUser (by decide) (by decide) (by decide)
    (by decide)⟩

/-- C10: a registration with a missing (or empty) username, email, password,
first or last name, or with a password shorter than 6 characters, is
answered 400 and leaves the credential store unchanged. -/
theorem register_validation_rejects (db : Store) (b : RegisterBody)
    (now salt : Nat)
    (h : (truthy b.username && truthy b.email && truthy b.password &&
          truthy b.firstName && truthy b.lastName) = false ∨
         (b.password.getD "").length < 6) :
    (register db b now salt).1 = db ∧
    ((register db b now salt).2 = .failure 400 "All fields are required" ∨
     (register db b now salt).2
       = .failure 400 "Password must be at least 6 characters") := by
  unfold register
  rcases h with h | h
  · rw [if_pos (by simp [h])]
    exact ⟨rfl, Or.inl rfl⟩
  · by_cases hall : (truthy b.username && truthy b.email && truthy b.password &&
        truthy b.firstName && truthy b.lastName) = true
    · rw [if_neg (by simp [hall]), if_pos h]
      exact ⟨rfl, Or.inr rfl⟩
    · have hf : (truthy b.username && truthy b.email && truthy b.password &&
          truthy b.firstName && truthy b.lastName) = false := by
        revert hall
        cases truthy b.username && truthy b.email && truthy b.password &&
          truthy b.firstName && truthy b.lastName <;> simp
      rw [if_pos (by simp [hf])]
      exact ⟨rfl, Or.inl rfl⟩

/-- Witness for `register_validation_rejects`: a payload with no email is
answered 400 and the store stays empty; a short password is also 400. -/
theorem register_validation_witness :
    (register dbEmpty noEmailBody 0 1).1 = dbEmpty ∧
    ((register dbEmpty noEmailBody 0 1).2 = .failure 400 "All fields are required" ∨
     (register dbEmpty noEmailBody 0 1).2
       = .failure 400 "Password must be at least 6 characters") :=
  register_validation_rejects dbEmpty noEmailBody 0 1 (Or.inl (by decide))

end Capstone
